import Mathlib

/-!
Verification development for the cam-alert Raspberry Pi camera stream server
(src/pi-service/libcamera_stream.py).

The Python script is shallowly embedded: byte output is modelled as lists of
natural numbers (ASCII codes), the per-connection MJPEG loop as a step
function over an explicit connection state driven by a list of per-iteration
environment outcomes, and the process lifecycle (main) as a trace of events.
Behaviour of Python standard-library primitives that the script calls
(BaseHTTPRequestHandler header buffering, send_error, method dispatch) is
modelled from the documented semantics of http.server, since those calls
determine the bytes on the wire.
-/

namespace CamAlert

/-- ASCII byte sequence of a string; bytes on the wire are modelled as lists
of natural numbers (character code points; the script only emits ASCII). -/
def strBytes (s : String) : List Nat := s.toList.map Char.toNat

/-- The two-byte CRLF line terminator used by the HTTP wire format. -/
def crlf : List Nat := strBytes "\r\n"

/-- Connection-side output state of a request handler: the pending header
buffer of BaseHTTPRequestHandler (Python attribute headers-buffer, a list of
already-encoded header lines) and the bytes written so far to the client
socket (wfile). -/
structure Conn where
  headersBuffer : List (List Nat)
  wire : List Nat
deriving Repr, DecidableEq

/-- Direct write to the client socket: wfile.write(bs) appends bs to the
wire. -/
def wfileWrite (c : Conn) (bs : List Nat) : Conn :=
  { c with wire := c.wire ++ bs }

/-- Model of BaseHTTPRequestHandler.send_header for an HTTP/1.x request: the
encoded line "keyword: value\r\n" is appended to the pending header buffer
(nothing reaches the wire yet). -/
def send_header (c : Conn) (keyword value : String) : Conn :=
  { c with headersBuffer := c.headersBuffer ++ [strBytes (keyword ++ ": " ++ value) ++ crlf] }

/-- Model of BaseHTTPRequestHandler.end_headers for an HTTP/1.x request: a
blank line is appended to the header buffer, the whole buffer is flushed to
the wire, and the buffer is reset. -/
def end_headers (c : Conn) : Conn :=
  { headersBuffer := [],
    wire := c.wire ++ (c.headersBuffer ++ [crlf]).flatten }

/-- Bytes emitted for one encoded frame by the body of the streaming loop,
source lines 89-94: wfile.write of the literal boundary, send_header of
Content-Type and Content-Length (str(len(buffer)), the byte length of the
encoded JPEG), end_headers, wfile.write of the JPEG bytes, wfile.write of a
final CRLF. The jpeg argument is the encoded buffer; len(buffer) in the
source equals the byte count of buffer.tobytes() because imencode returns a
one-byte-per-element array. -/
def sendFramePart (c : Conn) (jpeg : List Nat) : Conn :=
  let c1 := wfileWrite c (strBytes "--FRAME\r\n")
  let c2 := send_header c1 "Content-Type" "image/jpeg"
  let c3 := send_header c2 "Content-Length" (toString jpeg.length)
  let c4 := end_headers c3
  let c5 := wfileWrite c4 jpeg
  wfileWrite c5 crlf

/-- The multipart part for one frame as the specification words it: literally
"--FRAME\r\n", then the header lines "Content-Type: image/jpeg\r\n" and
"Content-Length: <N>\r\n" where N is the byte length of the encoded JPEG
buffer, then a blank line "\r\n", then exactly the N JPEG bytes, then a
trailing "\r\n". This definition follows the spec text and is compared
against the source-derived sendFramePart. -/
def specMultipartPart (jpeg : List Nat) : List Nat :=
  strBytes "--FRAME\r\n"
    ++ strBytes "Content-Type: image/jpeg\r\n"
    ++ strBytes ("Content-Length: " ++ toString jpeg.length ++ "\r\n")
    ++ strBytes "\r\n"
    ++ jpeg
    ++ strBytes "\r\n"

theorem strBytes_append (a b : String) : strBytes (a ++ b) = strBytes a ++ strBytes b := by
  simp [strBytes, String.toList, String.data_append]

theorem sendFramePart_wire (c : Conn) (jpeg : List Nat) (h : c.headersBuffer = []) :
    (sendFramePart c jpeg).wire = c.wire ++ specMultipartPart jpeg := by
  obtain ⟨buf, w⟩ := c
  subst h
  simp [sendFramePart, specMultipartPart, wfileWrite, send_header, end_headers,
    strBytes_append, crlf,
    show strBytes "Content-Type: image/jpeg\r\n"
        = strBytes "Content-Type: image/jpeg" ++ strBytes "\r\n" from rfl]

/-- Observable actions of the process, used to state ordering and absence
properties over executions. -/
inductive Event where
  | capture
  | encode (ok : Bool)
  | warnLog
  | debugLog
  | infoLog
  | errorLog
  | writePart
  | sleep33
  | probeCameras
  | cameraStart
  | stabilize
  | testCapture
  | bindSocket
  | serveForever
  | cameraStop
  | listenerShutdown
deriving Repr, DecidableEq

/-- Outcome of the external collaborators on one iteration of the streaming
loop: whether picam2.capture_array() raises, whether cv2.imencode reports
success, the encoded JPEG bytes when it does, and whether a wfile.write to
the client raises (socket closed / broken pipe). -/
structure IterEnv where
  captureRaises : Bool
  encodeOk : Bool
  jpeg : List Nat
  writeRaises : Bool
deriving Repr, DecidableEq

/-- Result of one iteration of the while-True streaming loop: either control
reaches the top of the loop again, or an exception propagates out of the
loop body (to the handler at source line 103). Each result carries the
connection state, the frame counter, and the events of the iteration. -/
inductive IterResult where
  | next (c : Conn) (frameCount : Nat) (events : List Event)
  | raised (c : Conn) (frameCount : Nat) (events : List Event)
deriving Repr, DecidableEq

/-- Events of an iteration result. -/
def IterResult.events : IterResult → List Event
  | .next _ _ evs => evs
  | .raised _ _ evs => evs

/-- One iteration of the streaming loop body, source lines 71-101. If
capture raises, the exception propagates at once (no write, no sleep). If
imencode reports failure, a warning is logged and the continue statement
returns to the top of the loop, skipping the write, the counter increment
and the pacing sleep. Otherwise the frame part is written (a write failure
is modelled as the exception propagating with the part not delivered), the
counter is incremented, a debug line is logged every 300th frame, and the
33 ms pacing sleep runs. -/
def streamIter (env : IterEnv) (c : Conn) (frameCount : Nat) : IterResult :=
  if env.captureRaises then
    .raised c frameCount [.capture]
  else if !env.encodeOk then
    .next c frameCount [.capture, .encode false, .warnLog]
  else if env.writeRaises then
    .raised c frameCount [.capture, .encode true]
  else
    let c2 := sendFramePart c env.jpeg
    let n2 := frameCount + 1
    .next c2 n2
      ([.capture, .encode true, .writePart]
        ++ (if n2 % 300 == 0 then [.debugLog] else [])
        ++ [.sleep33])

/-- Final state of a stream session run: connection state, frame counter,
event trace, and whether the session ended (the exception handler at source
lines 103-104 ran, logging the disconnect). -/
structure SessionRun where
  conn : Conn
  frameCount : Nat
  events : List Event
  ended : Bool
deriving Repr, DecidableEq

/-- The try-block of serveMjpegStream, source lines 69-104: the loop runs
one iteration per environment entry; an exception propagating out of an
iteration is caught by the except handler, which logs the disconnect at
informational level and ends the session. When the environment list is
exhausted with no exception the session is still live (the real loop has no
other exit). -/
def runSession : List IterEnv → Conn → Nat → SessionRun
  | [], c, n => ⟨c, n, [], false⟩
  | env :: rest, c, n =>
    match streamIter env c n with
    | .next c2 n2 evs =>
      let r := runSession rest c2 n2
      ⟨r.conn, r.frameCount, evs ++ r.events, r.ended⟩
    | .raised c2 n2 evs =>
      ⟨c2, n2, evs ++ [.infoLog], true⟩

/-- The Picamera2 camera handle held by the process; the one piece of state
the claims need is whether picam2.stop() has been called on it. A Python
object reference to it is truthy whether or not it has been stopped. -/
structure CameraHandle where
  stopped : Bool
deriving Repr, DecidableEq

/-- JSON values appearing in the health body. The timestamp produced by
time.time() is modelled as a number (the model clock). -/
inductive JsonVal where
  | str (s : String)
  | num (n : Nat)
deriving Repr, DecidableEq

/-- Rendering of one JSON value as json.dumps does. -/
def renderJson : JsonVal → String
  | .str s => "\"" ++ s ++ "\""
  | .num n => toString n

/-- Model of json.dumps on a dict, which preserves insertion order: the
fields are rendered in order, separated by ", ", inside braces. -/
def jsonDumps (fields : List (String × JsonVal)) : String :=
  "\x7b"
    ++ String.intercalate ", "
        (fields.map (fun kv => "\"" ++ kv.1 ++ "\": " ++ renderJson kv.2))
    ++ "\x7d"

/-- Response of the health endpoint: status code, Content-Type header value,
the health dict in insertion order, the body bytes written, and the events
(camera operations) the handler performed. -/
structure HealthResp where
  statusCode : Nat
  contentType : String
  fields : List (String × JsonVal)
  body : String
  events : List Event
deriving Repr, DecidableEq

/-- The serveHealthCheck handler, source lines 106-119: send_response(200),
Content-Type application/json, then the dict with status "ok", camera
"connected" when the stored picam2 reference is truthy (a non-None object,
stopped or not) and "disconnected" otherwise, and timestamp time.time();
the JSON-encoded dict is written as the body. The handler touches no camera
operation, so its event trace is empty. -/
def serveHealthCheck (picam2 : Option CameraHandle) (now : Nat) : HealthResp :=
  let healthData : List (String × JsonVal) :=
    [("status", .str "ok"),
     ("camera", .str (if picam2.isSome then "connected" else "disconnected")),
     ("timestamp", .num now)]
  { statusCode := 200,
    contentType := "application/json",
    fields := healthData,
    body := jsonDumps healthData,
    events := [] }

/-- An incoming HTTP request, as the dispatcher sees it. -/
structure HttpRequest where
  method : String
  path : String
deriving Repr, DecidableEq

/-- Routing outcome of one request: the 301 redirect, hand-off to a stream
session, hand-off to the health reporter, or an error response carrying the
status code and the body bytes written by send_error. -/
inductive RouteResult where
  | redirect (code : Nat) (location : String)
  | streamSession
  | healthReport
  | errorResp (code : Nat) (body : List Nat)
deriving Repr, DecidableEq

/-- Body emitted by BaseHTTPRequestHandler.send_error (modelled from the
documented http.server semantics, which the script's send_error(404) call
relies on): for a status code that allows a body, the default HTML error
page is sent, an HTML document naming the code and message. Its exact text
is immaterial to the claims; what matters is that it is non-empty HTML. -/
def sendErrorBody (code : Nat) (message : String) : List Nat :=
  strBytes ("<!DOCTYPE HTML>\n<html>\n<head><title>Error response</title></head>\n"
    ++ "<body>\n<h1>Error response</h1>\n<p>Error code: " ++ toString code
    ++ "</p>\n<p>Message: " ++ message ++ ".</p>\n</body>\n</html>\n")

/-- The do_GET dispatcher, source lines 43-58: path "/" gets a 301 redirect
with Location /stream.mjpg, "/stream.mjpg" starts a stream session,
"/health" runs the health reporter, and any other path gets
send_error(404), whose default message for 404 is "Not Found". -/
def do_GET (path : String) : RouteResult :=
  if path = "/" then .redirect 301 "/stream.mjpg"
  else if path = "/stream.mjpg" then .streamSession
  else if path = "/health" then .healthReport
  else .errorResp 404 (sendErrorBody 404 "Not Found")

/-- Method dispatch of BaseHTTPRequestHandler.handle_one_request (modelled
from the documented http.server semantics): the handler class defines only
do_GET, so any other method name has no do_<METHOD> attribute and the base
class answers send_error(501, "Unsupported method (<METHOD>)"). -/
def handleOneRequest (req : HttpRequest) : RouteResult :=
  if req.method = "GET" then do_GET req.path
  else .errorResp 501 (sendErrorBody 501 ("Unsupported method (" ++ req.method ++ ")"))

/-- Status code of a routing outcome (the stream and health hand-offs both
answer 200 from their handlers). -/
def responseStatus : RouteResult → Nat
  | .redirect code _ => code
  | .streamSession => 200
  | .healthReport => 200
  | .errorResp code _ => code

/-- Body bytes of a routing outcome, when the outcome writes a body
directly (error responses). -/
def responseBody : RouteResult → Option (List Nat)
  | .errorResp _ body => some body
  | .redirect _ _ => some []
  | _ => none

/-- Result of one run of main (source lines 263-304, exit code via
sys.exit(main()) at line 312): the ordered trace of lifecycle events, the
process exit code, and the camera reference captured by the handler factory
(none when startup aborted before the handler was created). -/
structure MainResult where
  trace : List Event
  exitCode : Nat
  handlerRef : Option CameraHandle
deriving Repr, DecidableEq

/-- The main function, modelled over the one environment dimension the
claims need: the number of cameras Picamera2.global_camera_info() reports,
in an environment where the camera otherwise starts and the operator
eventually interrupts serve_forever with Ctrl-C. With zero cameras,
initialize_camera raises RuntimeError before any server object exists; main
catches it, logs, and returns 1. Otherwise the camera is configured and
started (with the stabilization sleep and test capture of source lines
216-219), ThreadingServer binds the socket in its constructor, and
serve_forever runs until KeyboardInterrupt; the finally block then calls
picam2.stop() first and httpd.shutdown() second (source lines 294-297), and
main returns 0. The handler factory keeps its reference to the Picamera2
object; stop() does not clear it. -/
def mainRun (numCameras : Nat) : MainResult :=
  if numCameras = 0 then
    { trace := [.probeCameras, .errorLog],
      exitCode := 1,
      handlerRef := none }
  else
    { trace := [.probeCameras, .cameraStart, .stabilize, .testCapture,
                .bindSocket, .serveForever, .infoLog,
                .cameraStop, .listenerShutdown],
      exitCode := 0,
      handlerRef := some { stopped := true } }

/-- Connection state of an iteration result. -/
def IterResult.conn : IterResult → Conn
  | .next c _ _ => c
  | .raised c _ _ => c

/-- C1: for every successfully encoded frame in a stream session iteration,
the bytes emitted on the wire for that frame's multipart part are exactly
the literal boundary "--FRAME\r\n", the header lines
"Content-Type: image/jpeg\r\n" and "Content-Length: N\r\n" with N the exact
byte length of the encoded JPEG buffer, a blank line, the N JPEG bytes, and
a trailing "\r\n" (specMultipartPart states that format in the spec's
words). -/
theorem mjpeg_frame_part_byte_exact (env : IterEnv) (c : Conn) (n : Nat)
    (hc : env.captureRaises = false) (he : env.encodeOk = true)
    (hw : env.writeRaises = false) (hb : c.headersBuffer = []) :
    (streamIter env c n).conn.wire = c.wire ++ specMultipartPart env.jpeg := by
  rcases env with ⟨cr, eo, j, wr⟩
  subst hc he hw
  simp [streamIter, IterResult.conn, sendFramePart_wire c j hb]

theorem mjpeg_frame_part_byte_exact_witness :
    (streamIter ⟨false, true, [7, 8, 9], false⟩ ⟨[], []⟩ 0).conn.wire
      = ([] : List Nat) ++ specMultipartPart [7, 8, 9] :=
  mjpeg_frame_part_byte_exact ⟨false, true, [7, 8, 9], false⟩ ⟨[], []⟩ 0 rfl rfl rfl rfl

/-- C3 counterexample: in a session whose first iteration's capture raises
and whose second iteration would succeed, the session ends at once (the
exception handler runs) and capture is attempted exactly once, so a capture
failure does terminate the session and the next iteration does not attempt
capture again, contrary to the claim. -/
theorem capture_failure_cex :
    (runSession [⟨true, true, [1], false⟩, ⟨false, true, [1], false⟩] ⟨[], []⟩ 0).ended = true
    ∧ (runSession [⟨true, true, [1], false⟩, ⟨false, true, [1], false⟩] ⟨[], []⟩ 0).events.count
        Event.capture = 1 := by
  exact ⟨rfl, rfl⟩

/-- C3 amended: if the frame-capture call raises on an iteration, the
session terminates: the exception propagates out of the loop to the
session-level handler, which logs the disconnect at informational level,
and no further iteration runs (connection state and frame counter are left
as they were; only the capture and the informational log are observed). -/
theorem capture_failure_terminates_session (env : IterEnv) (rest : List IterEnv)
    (c : Conn) (n : Nat) (h : env.captureRaises = true) :
    runSession (env :: rest) c n = ⟨c, n, [.capture, .infoLog], true⟩ := by
  simp [runSession, streamIter, h]

theorem capture_failure_terminates_session_witness :
    runSession [⟨true, false, [], false⟩] ⟨[], []⟩ 5 = ⟨⟨[], []⟩, 5, [.capture, .infoLog], true⟩ :=
  capture_failure_terminates_session ⟨true, false, [], false⟩ [] ⟨[], []⟩ 5 rfl

/-- C4: when capture succeeds but the encode step reports failure, the
iteration leaves the connection untouched (no part bytes written), logs a
warning, and the continue statement returns control to the loop so the
session goes on with the next iteration un-ended. -/
theorem encode_failure_drops_frame (env : IterEnv) (rest : List IterEnv)
    (c : Conn) (n : Nat) (hc : env.captureRaises = false) (he : env.encodeOk = false) :
    streamIter env c n = .next c n [.capture, .encode false, .warnLog]
    ∧ runSession (env :: rest) c n =
        ⟨(runSession rest c n).conn, (runSession rest c n).frameCount,
          [.capture, .encode false, .warnLog] ++ (runSession rest c n).events,
          (runSession rest c n).ended⟩ := by
  constructor
  · simp [streamIter, hc, he]
  · simp [runSession, streamIter, hc, he]

theorem encode_failure_drops_frame_witness :
    streamIter ⟨false, false, [], false⟩ ⟨[], []⟩ 0
        = .next ⟨[], []⟩ 0 [.capture, .encode false, .warnLog]
    ∧ runSession [⟨false, false, [], false⟩] ⟨[], []⟩ 0 =
        ⟨(runSession [] ⟨[], []⟩ 0).conn, (runSession [] ⟨[], []⟩ 0).frameCount,
          [.capture, .encode false, .warnLog] ++ (runSession [] ⟨[], []⟩ 0).events,
          (runSession [] ⟨[], []⟩ 0).ended⟩ :=
  encode_failure_drops_frame ⟨false, false, [], false⟩ [] ⟨[], []⟩ 0 rfl rfl

theorem sleep_not_in_encode_fail_run (envs : List IterEnv) (c : Conn) (n : Nat)
    (h : ∀ e ∈ envs, e.captureRaises = false ∧ e.encodeOk = false) :
    Event.sleep33 ∉ (runSession envs c n).events := by
  induction envs generalizing c n with
  | nil => simp [runSession]
  | cons env rest ih =>
    obtain ⟨h1, h2⟩ := h env (List.mem_cons_self env rest)
    have hrest : ∀ e ∈ rest, e.captureRaises = false ∧ e.encodeOk = false :=
      fun e he => h e (List.mem_cons_of_mem env he)
    simp [runSession, streamIter, h1, h2, ih _ _ hrest]

/-- C9: the pacing sleep runs exactly when an iteration fully succeeds
(capture, encode and write all succeed); in particular the continue after a
failed encode skips it, so a run of consecutive encode-failure iterations
executes with no inter-iteration delay at all. -/
theorem pacing_sleep_only_after_full_success (env : IterEnv) (c : Conn) (n : Nat)
    (envs : List IterEnv) (c2 : Conn) (n2 : Nat)
    (h : ∀ e ∈ envs, e.captureRaises = false ∧ e.encodeOk = false) :
    (Event.sleep33 ∈ (streamIter env c n).events ↔
      env.captureRaises = false ∧ env.encodeOk = true ∧ env.writeRaises = false)
    ∧ Event.sleep33 ∉ (runSession envs c2 n2).events := by
  constructor
  · obtain ⟨cr, eo, j, wr⟩ := env
    cases cr <;> cases eo <;> cases wr <;>
      simp [streamIter, IterResult.events]
  · exact sleep_not_in_encode_fail_run envs c2 n2 h

theorem pacing_sleep_only_after_full_success_witness :
    (Event.sleep33 ∈ (streamIter ⟨false, true, [1], false⟩ ⟨[], []⟩ 0).events ↔
      (false = false ∧ true = true ∧ false = false))
    ∧ Event.sleep33 ∉
        (runSession [⟨false, false, [], false⟩, ⟨false, false, [], false⟩] ⟨[], []⟩ 0).events :=
  pacing_sleep_only_after_full_success ⟨false, true, [1], false⟩ ⟨[], []⟩ 0
    [⟨false, false, [], false⟩, ⟨false, false, [], false⟩] ⟨[], []⟩ 0 (by decide)

/-- C5: the health handler performs no camera operation at all - its event
trace contains no capture - and it answers 200 for every state of the
stored camera reference, including a stopped handle and no handle, so it
succeeds even when a capture would fail. -/
theorem health_never_captures (picam2 : Option CameraHandle) (now : Nat) :
    Event.capture ∉ (serveHealthCheck picam2 now).events
    ∧ (serveHealthCheck picam2 now).statusCode = 200 := by
  simp [serveHealthCheck]

/-- C6: every health request is answered 200 with Content-Type
application/json, and the body is the JSON encoding of exactly three
fields, in order status, camera, timestamp, where status is the constant
"ok", camera is "connected" exactly when the stored camera reference is
non-null and "disconnected" otherwise, and timestamp is the current model
clock value. -/
theorem health_response_contract (picam2 : Option CameraHandle) (now : Nat) :
    (serveHealthCheck picam2 now).statusCode = 200
    ∧ (serveHealthCheck picam2 now).contentType = "application/json"
    ∧ (serveHealthCheck picam2 now).fields.map Prod.fst = ["status", "camera", "timestamp"]
    ∧ (serveHealthCheck picam2 now).fields.lookup "status" = some (.str "ok")
    ∧ (serveHealthCheck picam2 now).fields.lookup "camera"
        = some (.str (if picam2.isSome then "connected" else "disconnected"))
    ∧ (serveHealthCheck picam2 now).fields.lookup "timestamp" = some (.num now)
    ∧ (serveHealthCheck picam2 now).body = jsonDumps (serveHealthCheck picam2 now).fields := by
  cases picam2 <;> exact ⟨rfl, rfl, rfl, rfl, rfl, rfl, rfl⟩

/-- C7 counterexample: a POST to "/" is a request whose method is not GET,
yet the server answers 501 (Unsupported method, from the base handler),
not 404; moreover the 404 sent for an unknown GET path carries the
non-empty default HTML error body rather than an empty body. -/
theorem non_get_404_cex :
    responseStatus (handleOneRequest ⟨"POST", "/"⟩) = 501
    ∧ responseStatus (handleOneRequest ⟨"POST", "/"⟩) ≠ 404
    ∧ responseBody (handleOneRequest ⟨"GET", "/nonexistent"⟩) ≠ some [] := by
  refine ⟨rfl, by decide, by decide⟩

/-- C7 amended: a GET request whose path is none of "/", "/stream.mjpg" and
"/health" is answered 404 with the default HTML error body, which is not
empty; a request whose method is not GET is answered 501 (Unsupported
method) by the base handler, not 404. -/
theorem unknown_path_404_non_get_501 (req : HttpRequest) :
    (req.method = "GET" → req.path ≠ "/" → req.path ≠ "/stream.mjpg" → req.path ≠ "/health" →
      handleOneRequest req = .errorResp 404 (sendErrorBody 404 "Not Found")
        ∧ sendErrorBody 404 "Not Found" ≠ [])
    ∧ (req.method ≠ "GET" →
        handleOneRequest req
          = .errorResp 501 (sendErrorBody 501 ("Unsupported method (" ++ req.method ++ ")"))) := by
  constructor
  · intro hm h1 h2 h3
    refine ⟨?_, by decide⟩
    simp [handleOneRequest, do_GET, hm, h1, h2, h3]
  · intro hm
    simp [handleOneRequest, hm]

theorem unknown_path_404_non_get_501_witness :
    handleOneRequest ⟨"GET", "/nonexistent"⟩ = .errorResp 404 (sendErrorBody 404 "Not Found")
    ∧ sendErrorBody 404 "Not Found" ≠ [] :=
  (unknown_path_404_non_get_501 ⟨"GET", "/nonexistent"⟩).1 rfl (by decide) (by decide) (by decide)

/-- C8: with zero enumerated cameras at startup, initialize_camera raises
before the server object is ever constructed, so main returns 1 (the
process exit code, non-zero) and the trace contains no socket bind. -/
theorem zero_cameras_exit_nonzero_no_bind :
    (mainRun 0).exitCode = 1
    ∧ (mainRun 0).exitCode ≠ 0
    ∧ Event.bindSocket ∉ (mainRun 0).trace := by
  decide

/-- C2: the shutdown path of main (its finally block, source lines 294-297)
calls picam2.stop() strictly before httpd.shutdown(): in every successful
run's trace the camera-stop event comes before the listener-shutdown
event, the opposite of the order the claim requires. -/
theorem shutdown_camera_stop_precedes_listener_stop (n : Nat) (h : 0 < n) :
    (mainRun n).trace.indexOf Event.cameraStop < (mainRun n).trace.indexOf Event.listenerShutdown
    ∧ Event.cameraStop ∈ (mainRun n).trace
    ∧ Event.listenerShutdown ∈ (mainRun n).trace := by
  have hn : n ≠ 0 := Nat.pos_iff_ne_zero.mp h
  simp only [mainRun, if_neg hn]
  decide

theorem shutdown_camera_stop_precedes_listener_stop_witness :
    (mainRun 1).trace.indexOf Event.cameraStop < (mainRun 1).trace.indexOf Event.listenerShutdown
    ∧ Event.cameraStop ∈ (mainRun 1).trace
    ∧ Event.listenerShutdown ∈ (mainRun 1).trace :=
  shutdown_camera_stop_precedes_listener_stop 1 (by decide)

/-- C10: the camera field of the health body depends only on the stored
reference being non-null - any handle, a stopped one included, yields
"connected" - and after a successful run (startup then shutdown) the
handler's reference is still set, pointing at the stopped camera, so the
post-shutdown health report still says "connected". -/
theorem health_connected_after_camera_stop (h : CameraHandle) (now n : Nat) (hn : 0 < n) :
    (serveHealthCheck (some h) now).fields.lookup "camera" = some (.str "connected")
    ∧ (mainRun n).handlerRef = some ⟨true⟩
    ∧ (serveHealthCheck (mainRun n).handlerRef now).fields.lookup "camera"
        = some (.str "connected") := by
  have hn' : n ≠ 0 := Nat.pos_iff_ne_zero.mp hn
  have href : (mainRun n).handlerRef = some ⟨true⟩ := by simp [mainRun, hn']
  exact ⟨rfl, href, by rw [href]; rfl⟩

theorem health_connected_after_camera_stop_witness :
    (serveHealthCheck (some ⟨true⟩) 12).fields.lookup "camera" = some (.str "connected")
    ∧ (mainRun 1).handlerRef = some ⟨true⟩
    ∧ (serveHealthCheck (mainRun 1).handlerRef 12).fields.lookup "camera"
        = some (.str "connected") :=
  health_connected_after_camera_stop ⟨true⟩ 12 1 (by decide)

end CamAlert
